import Mathlib

/-!
Shallow embedding of the BLE device session core of pygatt
(`src/pygatt/device.py`, class `BLEDevice`): UUID-to-handle resolution
against a cached service catalog with lazy re-discovery, subscription
management with idempotent configuration writes, and notification
dispatch to registered callbacks.

External effects (service discovery, wire writes, callback invocation)
are made explicit: each operation takes an environment describing the
collaborators' behaviour and returns a result, the updated device state,
and a trace of emitted events.
-/

set_option autoImplicit false

namespace Pygatt

/-- Modelled from the spec: UUID normalization (Python's `uuid.UUID`
constructor, external to this repository). A canonical UUID string holds
exactly 32 hexadecimal digits once the dashes are removed; normalization
yields the 128-bit numeric value, and any other string fails to
normalize. -/
def hexDigitVal (c : Char) : Option Nat :=
  if '0' ≤ c ∧ c ≤ '9' then some (c.toNat - '0'.toNat)
  else if 'a' ≤ c ∧ c ≤ 'f' then some (c.toNat - 'a'.toNat + 10)
  else if 'A' ≤ c ∧ c ≤ 'F' then some (c.toNat - 'A'.toNat + 10)
  else none

/-- Fold a list of hexadecimal digits into a number; fails on the first
non-hexadecimal character (as `int(hex_str, 16)` does). -/
def parseHexDigits : List Char → Nat → Option Nat
  | [], acc => some acc
  | c :: rest, acc =>
    match hexDigitVal c with
    | some d => parseHexDigits rest (16 * acc + d)
    | none => none

/-- Modelled from the spec: normalize a UUID string. Dashes are removed;
the remainder must be exactly 32 hexadecimal digits. Returns `none` when
the string cannot be normalized (Python raises `ValueError`). -/
def parseUUID (s : String) : Option Nat :=
  let hexChars := s.toList.filter (fun c => c != '-')
  if hexChars.length = 32 then parseHexDigits hexChars 0 else none

/-- Normalize the optional service UUID argument: `None` is passed
through, a string must normalize (mirrors lines 213-214 of
`device.py`). -/
def parseSrvc : Option String → Option (Option Nat)
  | none => some none
  | some s => (parseUUID s).map some

/-- Modelled from the spec: a discovered characteristic, `{ uuid, handle }`
(the concrete class lives in the backend modules, outside `src/`; two
characteristics compare equal to a UUID iff their normalized UUIDs
match). -/
structure Characteristic where
  uuid : Nat
  handle : Nat
deriving DecidableEq, Repr

/-- Modelled from the spec: a discovered service, `{ uuid, characteristics }`,
with the characteristics kept in catalog iteration order. -/
structure Service where
  uuid : Nat
  characteristics : List Characteristic
deriving DecidableEq, Repr

/-- The service catalog snapshot `self._services`, in dict iteration
order. -/
abbrev ServiceCatalog := List Service

/-- Externally visible events emitted by a device-session operation. -/
inductive Event where
  /-- One call to the discovery collaborator (`self.discover()`),
  replacing the catalog snapshot. -/
  | discover : Event
  /-- One wire write via `char_write_handle(handle, value, wait_for_response)`. -/
  | write (handle : Nat) (value : List Nat) (waitForResponse : Bool) : Event
  /-- One invocation of a registered callback with `(handle, value)`. -/
  | invoke (cb : Nat) (handle : Nat) (value : List Nat) : Event
deriving DecidableEq, Repr

/-- Errors surfaced by the session operations. `invalidUuid` stands for
the `ValueError` raised by UUID normalization, `characteristicNotFound`
for the `BLEError` raised by `get_handle` (carrying the requested UUID
pair), `transportError` for a failing wire write, and `callbackError`
for an exception escaping a user callback. -/
inductive BLEErr where
  | invalidUuid : BLEErr
  | characteristicNotFound (charUuid : Nat) (srvcUuid : Option Nat) : BLEErr
  | transportError : BLEErr
  | callbackError (cb : Nat) : BLEErr
deriving DecidableEq, Repr

/-- Behaviour of the external collaborators: what discovery returns,
which wire writes succeed, and which callback invocations return
normally (rather than raising). -/
structure Env where
  discover : ServiceCatalog
  writeOk : Nat → List Nat → Bool
  cbOk : Nat → Nat → List Nat → Bool

/-- The mutable session state of a `BLEDevice`: `self._services`,
`self._callbacks` (handle → set of callback ids, insertion order), and
`self._subscribed_handlers` (handle → last written configuration
bytes). -/
structure DeviceState where
  services : ServiceCatalog
  callbacks : List (Nat × List Nat)
  subscribed_handlers : List (Nat × List Nat)
deriving DecidableEq, Repr

/-- First entry for a key in an association list (dict lookup). -/
def lookupA {α : Type} : List (Nat × α) → Nat → Option α
  | [], _ => none
  | (k', v) :: rest, k => if k' = k then some v else lookupA rest k

/-- Set the value for a key (dict assignment): replaces the first entry
with that key, or appends a new entry. -/
def setEntry {α : Type} : List (Nat × α) → Nat → α → List (Nat × α)
  | [], k, v => [(k, v)]
  | (k', v') :: rest, k, v =>
    if k' = k then (k, v) :: rest else (k', v') :: setEntry rest k v

/-- Delete a key (dict `del`): removes every entry with that key (a dict
has at most one). -/
def eraseEntry {α : Type} (l : List (Nat × α)) (k : Nat) : List (Nat × α) :=
  l.filter (fun p => p.1 != k)

/-- `self._callbacks[value_handle].add(callback)`: `self._callbacks` is a
`defaultdict(set)`, so a missing entry is created, and adding an already
registered callback is a no-op. -/
def addCallback (l : List (Nat × List Nat)) (h : Nat) (cb : Nat) :
    List (Nat × List Nat) :=
  match lookupA l h with
  | some cbs => if cb ∈ cbs then l else setEntry l h (cbs ++ [cb])
  | none => l ++ [(h, [cb])]

/-- Inner loop of `BLEDevice.__find_char`: first characteristic of a
service whose UUID equals the requested one. -/
def findCharIn : List Characteristic → Nat → Option Characteristic
  | [], _ => none
  | c :: rest, cu => if c.uuid = cu then some c else findCharIn rest cu

/-- `BLEDevice.__find_char` (lines 193-199): scan services in catalog
order; when a service UUID is given, only services with that UUID are
searched; return the first matching characteristic, or `none`. -/
def findChar : ServiceCatalog → Nat → Option Nat → Option Characteristic
  | [], _, _ => none
  | s :: rest, cu, su =>
    if su = none ∨ su = some s.uuid then
      match findCharIn s.characteristics cu with
      | some c => some c
      | none => findChar rest cu su
    else findChar rest cu su

/-- Core of `BLEDevice.get_handle` after UUID normalization (lines
215-235): search the current snapshot; on a miss, replace the snapshot
with a fresh discovery result and search again; raise
`characteristicNotFound` (naming the requested pair) when still
missing. -/
def get_handle_core (env : Env) (st : DeviceState) (cu : Nat) (su : Option Nat) :
    Except BLEErr Nat × DeviceState × List Event :=
  let first := findChar st.services cu su
  let st1 := if first.isNone then { st with services := env.discover } else st
  let evs : List Event := if first.isNone then [Event.discover] else []
  match findChar st1.services cu su with
  | some c => (Except.ok c.handle, st1, evs)
  | none => (Except.error (BLEErr.characteristicNotFound cu su), st1, evs)

/-- `BLEDevice.get_handle` (lines 201-235): normalize the characteristic
UUID (and the service UUID when given), failing fast with `invalidUuid`,
then resolve against the catalog with at most one discovery refresh. -/
def get_handle (env : Env) (st : DeviceState) (char_uuid : String)
    (srvc_uuid : Option String) : Except BLEErr Nat × DeviceState × List Event :=
  match parseUUID char_uuid with
  | none => (Except.error BLEErr.invalidUuid, st, [])
  | some cu =>
    match parseSrvc srvc_uuid with
    | none => (Except.error BLEErr.invalidUuid, st, [])
    | some su => get_handle_core env st cu su

/-- The configuration bytes written by `subscribe` (lines 149-152):
`bytearray([0x2 if indication else 0x1, 0x0])`. -/
def subscribeProperties (indication : Bool) : List Nat :=
  [if indication then 2 else 1, 0]

/-- The callback-registration step of `subscribe` (lines 155-156): when
a callback is given, add it to the callback set for the value handle;
otherwise leave the state as is. -/
def registerCallback (st1 : DeviceState) (value_handle : Nat)
    (callback : Option Nat) : DeviceState :=
  match callback with
  | some cb => { st1 with callbacks := addCallback st1.callbacks value_handle cb }
  | none => st1

/-- `BLEDevice.subscribe` (lines 131-167): resolve the value handle
(`_notification_handles`, so the config handle is `value_handle + 1`),
register the callback when one is given, and issue a configuration
write only when the recorded configuration differs from the desired
one. A failing wire write surfaces as `transportError` and leaves
`subscribed_handlers` not updated. -/
def subscribe (env : Env) (st : DeviceState) (uuid : String)
    (srvc_uuid : Option String) (callback : Option Nat) (indication : Bool) :
    Except BLEErr Unit × DeviceState × List Event :=
  match get_handle env st uuid srvc_uuid with
  | (Except.error e, st1, evs) => (Except.error e, st1, evs)
  | (Except.ok value_handle, st1, evs) =>
    let characteristic_config_handle := value_handle + 1
    let properties := subscribeProperties indication
    let st2 := registerCallback st1 value_handle callback
    if lookupA st2.subscribed_handlers value_handle = some properties then
      (Except.ok (), st2, evs)
    else
      let evs2 := evs ++ [Event.write characteristic_config_handle properties false]
      if env.writeOk characteristic_config_handle properties then
        (Except.ok (),
         { st2 with subscribed_handlers :=
             setEntry st2.subscribed_handlers value_handle properties },
         evs2)
      else
        (Except.error BLEErr.transportError, st2, evs2)

/-- `BLEDevice.unsubscribe` (lines 169-191): takes only the
characteristic UUID (no service argument in the source), resolves it
unscoped, removes any callback set for the value handle, and, when a
subscription record exists, deletes it and writes `[0x00, 0x00]` to the
config handle; otherwise no write is issued. -/
def unsubscribe (env : Env) (st : DeviceState) (uuid : String) :
    Except BLEErr Unit × DeviceState × List Event :=
  match get_handle env st uuid none with
  | (Except.error e, st1, evs) => (Except.error e, st1, evs)
  | (Except.ok value_handle, st1, evs) =>
    let characteristic_config_handle := value_handle + 1
    let properties : List Nat := [0, 0]
    let st2 :=
      if (lookupA st1.callbacks value_handle).isSome then
        { st1 with callbacks := eraseEntry st1.callbacks value_handle }
      else st1
    if (lookupA st2.subscribed_handlers value_handle).isSome then
      let st3 := { st2 with subscribed_handlers :=
                     eraseEntry st2.subscribed_handlers value_handle }
      let evs2 := evs ++ [Event.write characteristic_config_handle properties false]
      if env.writeOk characteristic_config_handle properties then
        (Except.ok (), st3, evs2)
      else
        (Except.error BLEErr.transportError, st3, evs2)
    else
      (Except.ok (), st2, evs)

/-- Iterate the registered callbacks for a notification (the `for` loop
of lines 247-248): each invocation is recorded; a raising callback
aborts the loop and its exception propagates. -/
def runCallbacks (env : Env) : List Nat → Nat → List Nat →
    Except BLEErr Unit × List Event
  | [], _, _ => (Except.ok (), [])
  | cb :: rest, handle, value =>
    if env.cbOk cb handle value then
      let r := runCallbacks env rest handle value
      (r.1, Event.invoke cb handle value :: r.2)
    else
      (Except.error (BLEErr.callbackError cb), [Event.invoke cb handle value])

/-- `BLEDevice.receive_notification` (lines 237-248): look up the
callback set for the handle and invoke every registered callback with
`(handle, value)`; an unregistered handle is silently dropped. The
session state is never modified. -/
def receive_notification (env : Env) (st : DeviceState) (handle : Nat)
    (value : List Nat) : Except BLEErr Unit × DeviceState × List Event :=
  match lookupA st.callbacks handle with
  | some cbs =>
    let r := runCallbacks env cbs handle value
    (r.1, st, r.2)
  | none => (Except.ok (), st, [])

/-- Discriminate discovery events in a trace. -/
def Event.isDiscover : Event → Bool
  | Event.discover => true
  | _ => false

/-- Discriminate wire-write events in a trace. -/
def Event.isWrite : Event → Bool
  | Event.write _ _ _ => true
  | _ => false

/-- Number of discovery refreshes in a trace. -/
def discoverCount (evs : List Event) : Nat :=
  (evs.filter Event.isDiscover).length

/-- The wire writes of a trace, in order. -/
def configWrites (evs : List Event) : List Event :=
  evs.filter Event.isWrite

/-! Concrete fixtures used to evaluate the definitions on closed inputs:
a device exposing service `4` with characteristic `1` at handle 5, and
service `8` with characteristic `1` at handle 10 and characteristic `2`
at handle 20. -/

/-- Canonical string for the 128-bit UUID with value 1. -/
def uuid1Str : String := "00000000000000000000000000000001"

/-- Canonical string for the 128-bit UUID with value 2. -/
def uuid2Str : String := "00000000000000000000000000000002"

/-- Canonical string for the 128-bit UUID with value 3 (present in no
fixture catalog). -/
def uuid3Str : String := "00000000000000000000000000000003"

/-- Dashed canonical string for the service UUID with value 4. -/
def srvc4Str : String := "00000000-0000-0000-0000-000000000004"

/-- Dashed canonical string for the service UUID with value 8. -/
def srvc8Str : String := "00000000-0000-0000-0000-000000000008"

/-- A string that cannot be normalized to a UUID. -/
def badUuidStr : String := "not-a-uuid"

/-- Fixture service `4` with characteristic `1` at handle 5. -/
def svcA : Service := { uuid := 4, characteristics := [{ uuid := 1, handle := 5 }] }

/-- Fixture service `8` with characteristic `1` at handle 10 and
characteristic `2` at handle 20. -/
def svcB : Service :=
  { uuid := 8, characteristics := [{ uuid := 1, handle := 10 }, { uuid := 2, handle := 20 }] }

/-- Environment whose discovery returns both fixture services and whose
writes and callbacks all succeed. -/
def envAll : Env :=
  { discover := [svcA, svcB], writeOk := fun _ _ => true, cbOk := fun _ _ _ => true }

/-- Environment in which every wire write fails (transport error). -/
def envWriteFails : Env :=
  { discover := [svcA, svcB], writeOk := fun _ _ => false, cbOk := fun _ _ _ => true }

/-- Environment in which every callback invocation raises. -/
def envCbRaises : Env :=
  { discover := [], writeOk := fun _ _ => true, cbOk := fun _ _ _ => false }

/-- Fresh session state whose catalog already holds both fixture
services. -/
def stFull : DeviceState :=
  { services := [svcA, svcB], callbacks := [], subscribed_handlers := [] }

/-- Fresh session state with an empty catalog (before any discovery). -/
def stEmptyCat : DeviceState :=
  { services := [], callbacks := [], subscribed_handlers := [] }

/-- State with callback 0 registered on handle 10 (for dispatch
fixtures). -/
def stWithCb : DeviceState :=
  { services := [], callbacks := [(10, [0])], subscribed_handlers := [] }

/-- State with callbacks 0 and 1 registered on handle 10. -/
def stWithTwoCbs : DeviceState :=
  { services := [], callbacks := [(10, [0, 1])], subscribed_handlers := [] }

/-- State subscribed (notification configuration recorded) at handles 5
and 10, with callback 7 registered on handle 10 — as left by a
service-scoped subscribe to characteristic `1` of service `8`. -/
def stSubBoth : DeviceState :=
  { services := [svcA, svcB], callbacks := [(10, [7])],
    subscribed_handlers := [(5, [1, 0]), (10, [1, 0])] }

end Pygatt

deriving instance DecidableEq for Except

namespace Pygatt

/-! Helper lemmas about the association-list primitives. -/

theorem lookupA_setEntry_self {α : Type} (l : List (Nat × α)) (k : Nat) (v : α) :
    lookupA (setEntry l k v) k = some v := by
  induction l with
  | nil => simp [setEntry, lookupA]
  | cons p rest ih =>
    by_cases h : p.1 = k
    · simp [setEntry, lookupA, h]
    · cases p with
      | mk k' v' =>
        simp only at h
        simp [setEntry, lookupA, h, ih]

theorem lookupA_eraseEntry_self {α : Type} (l : List (Nat × α)) (k : Nat) :
    lookupA (eraseEntry l k) k = none := by
  induction l with
  | nil => rfl
  | cons p rest ih =>
    by_cases h : p.1 = k
    · simpa [eraseEntry, List.filter_cons, h] using ih
    · simpa [eraseEntry, List.filter_cons, h, lookupA] using ih

theorem lookupA_append_of_none {α : Type} {l l2 : List (Nat × α)} {k : Nat}
    (h : lookupA l k = none) : lookupA (l ++ l2) k = lookupA l2 k := by
  induction l with
  | nil => rfl
  | cons p rest ih =>
    by_cases hk : p.1 = k
    · cases p; simp_all [lookupA]
    · cases p; simp_all [lookupA]

theorem addCallback_lookup (l : List (Nat × List Nat)) (h : Nat) (cb : Nat) :
    ∃ cbs, lookupA (addCallback l h cb) h = some cbs ∧ cb ∈ cbs := by
  unfold addCallback
  cases hl : lookupA l h with
  | some cbs =>
    by_cases hmem : cb ∈ cbs
    · exact ⟨cbs, by simp [hmem, hl], hmem⟩
    · exact ⟨cbs ++ [cb], by simp [hmem, lookupA_setEntry_self], by simp⟩
  | none =>
    exact ⟨[cb], by simp [lookupA_append_of_none hl, lookupA], by simp⟩

/-! Helper lemmas about `get_handle`. -/

theorem get_handle_hit (env : Env) (st : DeviceState) {cu : Nat} {su : Option Nat}
    {c : Characteristic} (cs : String) (ss : Option String)
    (hc : parseUUID cs = some cu) (hs : parseSrvc ss = some su)
    (hfind : findChar st.services cu su = some c) :
    get_handle env st cs ss = (Except.ok c.handle, st, []) := by
  simp [get_handle, hc, hs, get_handle_core, hfind]

theorem get_handle_miss_found (env : Env) (st : DeviceState) {cu : Nat}
    {su : Option Nat} {c : Characteristic} (cs : String) (ss : Option String)
    (hc : parseUUID cs = some cu) (hs : parseSrvc ss = some su)
    (hmiss : findChar st.services cu su = none)
    (hfound : findChar env.discover cu su = some c) :
    get_handle env st cs ss =
      (Except.ok c.handle, { st with services := env.discover }, [Event.discover]) := by
  simp [get_handle, hc, hs, get_handle_core, hmiss, hfound]

theorem get_handle_miss_missing (env : Env) (st : DeviceState) {cu : Nat}
    {su : Option Nat} (cs : String) (ss : Option String)
    (hc : parseUUID cs = some cu) (hs : parseSrvc ss = some su)
    (hmiss : findChar st.services cu su = none)
    (hmiss2 : findChar env.discover cu su = none) :
    get_handle env st cs ss =
      (Except.error (BLEErr.characteristicNotFound cu su),
       { st with services := env.discover }, [Event.discover]) := by
  simp [get_handle, hc, hs, get_handle_core, hmiss, hmiss2]

theorem get_handle_ok_inv {env : Env} {st : DeviceState} {cs : String}
    {ss : Option String} {h : Nat} {st' : DeviceState} {evs : List Event}
    (hok : get_handle env st cs ss = (Except.ok h, st', evs)) :
    ∃ cu su c, parseUUID cs = some cu ∧ parseSrvc ss = some su ∧
      findChar st'.services cu su = some c ∧ c.handle = h ∧
      st'.callbacks = st.callbacks ∧
      st'.subscribed_handlers = st.subscribed_handlers := by
  unfold get_handle at hok
  cases hpc : parseUUID cs with
  | none => rw [hpc] at hok; simp at hok
  | some cu =>
    rw [hpc] at hok
    cases hps : parseSrvc ss with
    | none => rw [hps] at hok; simp at hok
    | some su =>
      rw [hps] at hok
      unfold get_handle_core at hok
      cases hf : findChar st.services cu su with
      | some c =>
        simp only [hf, Option.isNone_some, Bool.false_eq_true, if_false,
          Prod.mk.injEq, Except.ok.injEq] at hok
        obtain ⟨hh, hst, -⟩ := hok
        subst hst
        exact ⟨cu, su, c, rfl, rfl, hf, hh, rfl, rfl⟩
      | none =>
        simp only [hf, Option.isNone_none, if_true] at hok
        cases hf2 : findChar env.discover cu su with
        | some c =>
          simp only [hf2, Prod.mk.injEq, Except.ok.injEq] at hok
          obtain ⟨hh, hst, -⟩ := hok
          subst hst
          exact ⟨cu, su, c, rfl, rfl, hf2, hh, rfl, rfl⟩
        | none => simp [hf2] at hok

theorem get_handle_stable {env : Env} {st t : DeviceState} {cs : String}
    {ss : Option String} {h : Nat} {st' : DeviceState} {evs : List Event}
    (hok : get_handle env st cs ss = (Except.ok h, st', evs))
    (hsv : t.services = st'.services) :
    get_handle env t cs ss = (Except.ok h, t, []) := by
  obtain ⟨cu, su, c, hc, hs, hfind, hh, -, -⟩ := get_handle_ok_inv hok
  subst hh
  exact get_handle_hit env t cs ss hc hs (by rw [hsv]; exact hfind)

theorem get_handle_no_writes (env : Env) (st : DeviceState) (cs : String)
    (ss : Option String) : configWrites (get_handle env st cs ss).2.2 = [] := by
  unfold get_handle
  cases parseUUID cs with
  | none => simp [configWrites]
  | some cu =>
    cases parseSrvc ss with
    | none => simp [configWrites]
    | some su =>
      unfold get_handle_core
      cases hf : findChar st.services cu su with
      | some c => simp [hf, configWrites]
      | none =>
        cases hf2 : findChar env.discover cu su <;>
          simp [hf, hf2, configWrites, Event.isWrite]

theorem get_handle_discover_le_one (env : Env) (st : DeviceState) (cs : String)
    (ss : Option String) : discoverCount (get_handle env st cs ss).2.2 ≤ 1 := by
  unfold get_handle
  cases parseUUID cs with
  | none => simp [discoverCount]
  | some cu =>
    cases parseSrvc ss with
    | none => simp [discoverCount]
    | some su =>
      unfold get_handle_core
      cases hf : findChar st.services cu su with
      | some c => simp [hf, discoverCount]
      | none =>
        cases hf2 : findChar env.discover cu su <;>
          simp [hf, hf2, discoverCount, Event.isDiscover]

end Pygatt

namespace Pygatt

/-- C7: for every (characteristic UUID, optional service UUID) pair whose
characteristic is present in the current catalog snapshot (equal
characteristic UUID, within a service of equal UUID when a service UUID
is given), `get_handle` returns that characteristic's recorded handle,
leaves the state unchanged, and triggers no discovery refresh. -/
theorem claim7_get_handle_hit_no_refresh (env : Env) (st : DeviceState)
    (cs : String) (ss : Option String) (cu : Nat) (su : Option Nat)
    (c : Characteristic)
    (hc : parseUUID cs = some cu) (hs : parseSrvc ss = some su)
    (hfind : findChar st.services cu su = some c) :
    get_handle env st cs ss = (Except.ok c.handle, st, []) :=
  get_handle_hit env st cs ss hc hs hfind

theorem claim7_witness :
    parseUUID uuid1Str = some 1 ∧ parseSrvc (some srvc8Str) = some (some 8) ∧
    findChar stFull.services 1 (some 8) = some { uuid := 1, handle := 10 } ∧
    get_handle envAll stFull uuid1Str (some srvc8Str) = (Except.ok 10, stFull, []) :=
  ⟨by decide, by decide, by decide,
   claim7_get_handle_hit_no_refresh envAll stFull uuid1Str (some srvc8Str)
     1 (some 8) { uuid := 1, handle := 10 } (by decide) (by decide) (by decide)⟩

/-- C1: for every pair absent from the current catalog snapshot,
`get_handle` performs exactly one discovery refresh that replaces the
snapshot; it returns the handle if the pair is present in the refreshed
catalog and otherwise fails with `characteristicNotFound` carrying the
requested UUID pair; and no call of `get_handle` ever performs more than
one refresh. -/
theorem claim1_get_handle_miss_single_refresh (env : Env) (st : DeviceState)
    (cs : String) (ss : Option String) (cu : Nat) (su : Option Nat)
    (hc : parseUUID cs = some cu) (hs : parseSrvc ss = some su)
    (hmiss : findChar st.services cu su = none) :
    (discoverCount (get_handle env st cs ss).2.2 = 1 ∧
     (get_handle env st cs ss).2.1 = { st with services := env.discover } ∧
     (∀ c, findChar env.discover cu su = some c →
       (get_handle env st cs ss).1 = Except.ok c.handle) ∧
     (findChar env.discover cu su = none →
       (get_handle env st cs ss).1 =
         Except.error (BLEErr.characteristicNotFound cu su))) ∧
    ∀ env2 st2 cs2 ss2, discoverCount (get_handle env2 st2 cs2 ss2).2.2 ≤ 1 := by
  constructor
  · cases hf2 : findChar env.discover cu su with
    | some c =>
      rw [get_handle_miss_found env st cs ss hc hs hmiss hf2]
      refine ⟨by simp [discoverCount, Event.isDiscover], rfl, ?_, ?_⟩
      · intro c' hc'
        injection hc' with h
        subst h
        rfl
      · intro hno
        cases hno
    | none =>
      rw [get_handle_miss_missing env st cs ss hc hs hmiss hf2]
      refine ⟨by simp [discoverCount, Event.isDiscover], rfl, ?_, fun _ => rfl⟩
      intro c' hc'
      cases hc'
  · intro env2 st2 cs2 ss2
    exact get_handle_discover_le_one env2 st2 cs2 ss2

theorem claim1_witness :
    parseUUID uuid1Str = some 1 ∧ parseSrvc (some srvc8Str) = some (some 8) ∧
    findChar stEmptyCat.services 1 (some 8) = none ∧
    discoverCount (get_handle envAll stEmptyCat uuid1Str (some srvc8Str)).2.2 = 1 ∧
    (get_handle envAll stEmptyCat uuid1Str (some srvc8Str)).1 = Except.ok 10 :=
  ⟨by decide, by decide, by decide,
   (claim1_get_handle_miss_single_refresh envAll stEmptyCat uuid1Str (some srvc8Str)
      1 (some 8) (by decide) (by decide) (by decide)).1.1,
   (claim1_get_handle_miss_single_refresh envAll stEmptyCat uuid1Str (some srvc8Str)
      1 (some 8) (by decide) (by decide) (by decide)).1.2.2.1
     { uuid := 1, handle := 10 } (by decide)⟩

/-- C9: for every characteristic UUID string that cannot be normalized —
and likewise when a given service UUID string cannot be normalized —
`get_handle` fails with `invalidUuid`, leaving the state (in particular
the catalog) untouched and performing no discovery refresh, whatever the
catalog holds. -/
theorem claim9_invalid_uuid_fails_fast (env : Env) (st : DeviceState)
    (cs : String) (ss : Option String)
    (h : parseUUID cs = none ∨ parseSrvc ss = none) :
    get_handle env st cs ss = (Except.error BLEErr.invalidUuid, st, []) := by
  rcases h with h | h
  · simp [get_handle, h]
  · cases hpc : parseUUID cs with
    | none => simp [get_handle, hpc]
    | some cu => simp [get_handle, hpc, h]

theorem claim9_witness :
    (parseUUID badUuidStr = none ∨ parseSrvc (some srvc8Str) = none) ∧
    get_handle envAll stFull badUuidStr (some srvc8Str) =
      (Except.error BLEErr.invalidUuid, stFull, []) :=
  ⟨Or.inl (by decide),
   claim9_invalid_uuid_fails_fast envAll stFull badUuidStr (some srvc8Str)
     (Or.inl (by decide))⟩

end Pygatt

namespace Pygatt

theorem runCallbacks_all_ok (env : Env) (cbs : List Nat) (handle : Nat)
    (value : List Nat) (hok : ∀ cb ∈ cbs, env.cbOk cb handle value = true) :
    runCallbacks env cbs handle value =
      (Except.ok (), cbs.map (fun cb => Event.invoke cb handle value)) := by
  induction cbs with
  | nil => rfl
  | cons cb rest ih =>
    have h1 := hok cb (by simp)
    have h2 : ∀ c ∈ rest, env.cbOk c handle value = true :=
      fun c hc => hok c (by simp [hc])
    simp [runCallbacks, h1, ih h2]

/-- C3: dispatching a notification for a handle with a registered
callback set invokes every registered callback exactly once with
`(handle, value)` (the emitted invocations are exactly one per recorded
callback, in order), while dispatching for a handle with no registered
set invokes nothing, changes nothing, and raises no error. -/
theorem claim3_notification_fanout (env : Env) (st : DeviceState)
    (handle : Nat) (value : List Nat) :
    (∀ cbs, lookupA st.callbacks handle = some cbs →
       (∀ cb ∈ cbs, env.cbOk cb handle value = true) →
       receive_notification env st handle value =
         (Except.ok (), st, cbs.map (fun cb => Event.invoke cb handle value)) ∧
       (cbs.Nodup → ∀ cb ∈ cbs,
         (receive_notification env st handle value).2.2.count
           (Event.invoke cb handle value) = 1)) ∧
    (lookupA st.callbacks handle = none →
       receive_notification env st handle value = (Except.ok (), st, [])) := by
  constructor
  · intro cbs hl hok
    have hrun := runCallbacks_all_ok env cbs handle value hok
    have heq : receive_notification env st handle value =
        (Except.ok (), st, cbs.map (fun cb => Event.invoke cb handle value)) := by
      simp [receive_notification, hl, hrun]
    refine ⟨heq, ?_⟩
    intro hnd cb hcb
    rw [heq]
    have hinj : Function.Injective (fun cb => Event.invoke cb handle value) := by
      intro a b hab
      simpa using hab
    simp only []
    rw [List.count_map_of_injective cbs _ hinj cb]
    exact List.count_eq_one_of_mem hnd hcb
  · intro hl
    unfold receive_notification
    rw [hl]

theorem claim3_witness :
    receive_notification envAll stWithTwoCbs 10 [3, 4] =
      (Except.ok (), stWithTwoCbs,
       [Event.invoke 0 10 [3, 4], Event.invoke 1 10 [3, 4]]) ∧
    receive_notification envAll stWithTwoCbs 11 [3, 4] =
      (Except.ok (), stWithTwoCbs, []) :=
  ⟨((claim3_notification_fanout envAll stWithTwoCbs 10 [3, 4]).1 [0, 1]
      (by decide) (fun cb _ => rfl)).1,
   (claim3_notification_fanout envAll stWithTwoCbs 11 [3, 4]).2 (by decide)⟩

/-- C4 counterexample: with callback 0 registered on handle 10 and an
environment in which that callback raises, `receive_notification`
propagates the callback's exception to its caller — refuting, at this
input, the claim that dispatch never raises to the transport thread. -/
theorem claim4_dispatch_raises_counterexample :
    (receive_notification envCbRaises stWithCb 10 [1]).1 =
      Except.error (BLEErr.callbackError 0) := by decide

/-- C4 (amended): notification dispatch never mutates the shared
subscription/callback tables, and when no registered callback raises it
returns without error; but a raising callback's exception does propagate
out of `receive_notification` to the transport thread. -/
theorem claim4_dispatch_state_unchanged (env : Env) (st : DeviceState)
    (handle : Nat) (value : List Nat) :
    (receive_notification env st handle value).2.1 = st ∧
    ((∀ cbs, lookupA st.callbacks handle = some cbs →
        ∀ cb ∈ cbs, env.cbOk cb handle value = true) →
      (receive_notification env st handle value).1 = Except.ok ()) := by
  constructor
  · unfold receive_notification
    cases lookupA st.callbacks handle <;> rfl
  · intro hok
    unfold receive_notification
    cases hl : lookupA st.callbacks handle with
    | none => rfl
    | some cbs => simp [runCallbacks_all_ok env cbs handle value (hok cbs hl)]

theorem claim4_witness :
    (receive_notification envAll stWithTwoCbs 10 [9]).2.1 = stWithTwoCbs ∧
    (receive_notification envAll stWithTwoCbs 10 [9]).1 = Except.ok () :=
  ⟨(claim4_dispatch_state_unchanged envAll stWithTwoCbs 10 [9]).1,
   (claim4_dispatch_state_unchanged envAll stWithTwoCbs 10 [9]).2
     (fun _ _ _ _ => rfl)⟩

end Pygatt

namespace Pygatt

theorem addCallback_of_mem {l : List (Nat × List Nat)} {h cb : Nat}
    {cbs : List Nat} (hl : lookupA l h = some cbs) (hm : cb ∈ cbs) :
    addCallback l h cb = l := by
  unfold addCallback
  rw [hl]
  simp [hm]

theorem registerCallback_subscribed (st1 : DeviceState) (h : Nat)
    (cb : Option Nat) :
    (registerCallback st1 h cb).subscribed_handlers = st1.subscribed_handlers := by
  cases cb <;> rfl

theorem registerCallback_services (st1 : DeviceState) (h : Nat)
    (cb : Option Nat) :
    (registerCallback st1 h cb).services = st1.services := by
  cases cb <;> rfl

theorem subscribe_resolved (env : Env) (st : DeviceState) (uuid : String)
    (ss : Option String) (cb : Option Nat) (ind : Bool) (h : Nat)
    (st1 : DeviceState) (evs1 : List Event)
    (hok : get_handle env st uuid ss = (Except.ok h, st1, evs1)) :
    subscribe env st uuid ss cb ind =
      (if lookupA st1.subscribed_handlers h = some (subscribeProperties ind) then
         (Except.ok (), registerCallback st1 h cb, evs1)
       else if env.writeOk (h + 1) (subscribeProperties ind) then
         (Except.ok (),
          { registerCallback st1 h cb with
              subscribed_handlers :=
                setEntry st1.subscribed_handlers h (subscribeProperties ind) },
          evs1 ++ [Event.write (h + 1) (subscribeProperties ind) false])
       else
         (Except.error BLEErr.transportError, registerCallback st1 h cb,
          evs1 ++ [Event.write (h + 1) (subscribeProperties ind) false])) := by
  unfold subscribe
  rw [hok]
  simp only [registerCallback_subscribed]

theorem unsubscribe_resolved (env : Env) (st : DeviceState) (uuid : String)
    (h : Nat) (st1 : DeviceState) (evs1 : List Event)
    (hok : get_handle env st uuid none = (Except.ok h, st1, evs1)) :
    unsubscribe env st uuid =
      (let st2 := if (lookupA st1.callbacks h).isSome then
           { st1 with callbacks := eraseEntry st1.callbacks h } else st1
       if (lookupA st2.subscribed_handlers h).isSome then
         if env.writeOk (h + 1) [0, 0] then
           (Except.ok (),
            { st2 with subscribed_handlers := eraseEntry st2.subscribed_handlers h },
            evs1 ++ [Event.write (h + 1) [0, 0] false])
         else
           (Except.error BLEErr.transportError,
            { st2 with subscribed_handlers := eraseEntry st2.subscribed_handlers h },
            evs1 ++ [Event.write (h + 1) [0, 0] false])
       else (Except.ok (), st2, evs1)) := by
  unfold unsubscribe
  rw [hok]

end Pygatt

namespace Pygatt

/-- C5: a successful `subscribe` call that decides to write targets the
config handle `value_handle + 1` with the two-byte little-endian value
`[0x02, 0x00]` when indications are requested and `[0x01, 0x00]`
otherwise, sent without waiting for a response — and that is its only
wire write. -/
theorem claim5_subscribe_write_encoding (env : Env) (st : DeviceState)
    (uuid : String) (ss : Option String) (cb : Option Nat) (ind : Bool)
    (h : Nat) (st1 : DeviceState) (evs1 : List Event)
    (hok : get_handle env st uuid ss = (Except.ok h, st1, evs1))
    (hnot : lookupA st1.subscribed_handlers h ≠ some (subscribeProperties ind))
    (hw : env.writeOk (h + 1) (subscribeProperties ind) = true) :
    (subscribe env st uuid ss cb ind).1 = Except.ok () ∧
    configWrites (subscribe env st uuid ss cb ind).2.2 =
      [Event.write (h + 1) [if ind then 2 else 1, 0] false] := by
  have hf1 : List.filter Event.isWrite evs1 = [] := by
    have hh := get_handle_no_writes env st uuid ss
    rw [hok] at hh
    simpa [configWrites] using hh
  rw [subscribe_resolved env st uuid ss cb ind h st1 evs1 hok, if_neg hnot,
    if_pos hw]
  exact ⟨rfl, by simp [configWrites, List.filter_append, hf1, Event.isWrite,
    subscribeProperties]⟩

theorem claim5_witness :
    (subscribe envAll stFull uuid2Str none none true).1 = Except.ok () ∧
    configWrites (subscribe envAll stFull uuid2Str none none true).2.2 =
      [Event.write 21 [2, 0] false] :=
  claim5_subscribe_write_encoding envAll stFull uuid2Str none none true 20 stFull
    [] (by decide) (by decide) (by decide)

/-- C10: `subscribe` is not atomic on a transport error — when the
configuration write fails during a call that provided a callback, the
call surfaces the transport error, yet the callback is already
registered for the value handle and the recorded configured-properties
for that handle are left exactly as before the call. -/
theorem claim10_subscribe_partial_on_write_failure (env : Env)
    (st : DeviceState) (uuid : String) (ss : Option String) (c : Nat)
    (ind : Bool) (h : Nat) (st1 : DeviceState) (evs1 : List Event)
    (hok : get_handle env st uuid ss = (Except.ok h, st1, evs1))
    (hnot : lookupA st1.subscribed_handlers h ≠ some (subscribeProperties ind))
    (hw : env.writeOk (h + 1) (subscribeProperties ind) = false) :
    (subscribe env st uuid ss (some c) ind).1 =
      Except.error BLEErr.transportError ∧
    (∃ cbs, lookupA (subscribe env st uuid ss (some c) ind).2.1.callbacks h =
       some cbs ∧ c ∈ cbs) ∧
    (subscribe env st uuid ss (some c) ind).2.1.subscribed_handlers =
      st.subscribed_handlers := by
  obtain ⟨cu, su, ch, -, -, -, -, -, hsubs⟩ := get_handle_ok_inv hok
  rw [subscribe_resolved env st uuid ss (some c) ind h st1 evs1 hok,
    if_neg hnot, if_neg (by simp [hw])]
  refine ⟨rfl, ?_, ?_⟩
  · show ∃ cbs,
      lookupA (registerCallback st1 h (some c)).callbacks h = some cbs ∧ c ∈ cbs
    simpa [registerCallback] using addCallback_lookup st1.callbacks h c
  · show (registerCallback st1 h (some c)).subscribed_handlers =
      st.subscribed_handlers
    rw [registerCallback_subscribed, hsubs]

theorem claim10_witness :
    (subscribe envWriteFails stFull uuid1Str (some srvc8Str) (some 7) false).1 =
      Except.error BLEErr.transportError ∧
    (∃ cbs, lookupA (subscribe envWriteFails stFull uuid1Str (some srvc8Str)
       (some 7) false).2.1.callbacks 10 = some cbs ∧ 7 ∈ cbs) ∧
    (subscribe envWriteFails stFull uuid1Str (some srvc8Str)
       (some 7) false).2.1.subscribed_handlers = stFull.subscribed_handlers :=
  claim10_subscribe_partial_on_write_failure envWriteFails stFull uuid1Str
    (some srvc8Str) 7 false 10 stFull [] (by decide) (by decide) (by decide)

end Pygatt

namespace Pygatt

/-- C2: when a first `subscribe` call resolves the handle and issues a
configuration write, a second call with identical arguments finds the
recorded configured-properties equal to the desired ones, changes
nothing and emits no event at all — so the two calls together issue
exactly one configuration write to the wire. -/
theorem claim2_subscribe_idempotent (env : Env) (st : DeviceState)
    (uuid : String) (ss : Option String) (cb : Option Nat) (ind : Bool)
    (h : Nat) (st1 : DeviceState) (evs1 : List Event)
    (hok : get_handle env st uuid ss = (Except.ok h, st1, evs1))
    (hnot : lookupA st1.subscribed_handlers h ≠ some (subscribeProperties ind))
    (hw : env.writeOk (h + 1) (subscribeProperties ind) = true) :
    (subscribe env st uuid ss cb ind).1 = Except.ok () ∧
    configWrites (subscribe env st uuid ss cb ind).2.2 =
      [Event.write (h + 1) (subscribeProperties ind) false] ∧
    lookupA (subscribe env st uuid ss cb ind).2.1.subscribed_handlers h =
      some (subscribeProperties ind) ∧
    subscribe env (subscribe env st uuid ss cb ind).2.1 uuid ss cb ind =
      (Except.ok (), (subscribe env st uuid ss cb ind).2.1, []) := by
  have hf1 : List.filter Event.isWrite evs1 = [] := by
    have hh := get_handle_no_writes env st uuid ss
    rw [hok] at hh
    simpa [configWrites] using hh
  have hr1 := subscribe_resolved env st uuid ss cb ind h st1 evs1 hok
  rw [if_neg hnot, if_pos hw] at hr1
  rw [hr1]
  refine ⟨rfl, ?_, ?_, ?_⟩
  · simp [configWrites, List.filter_append, hf1, Event.isWrite]
  · simpa using
      lookupA_setEntry_self st1.subscribed_handlers h (subscribeProperties ind)
  · show subscribe env
      ({ registerCallback st1 h cb with
           subscribed_handlers :=
             setEntry st1.subscribed_handlers h (subscribeProperties ind) })
      uuid ss cb ind =
      (Except.ok (),
       ({ registerCallback st1 h cb with
            subscribed_handlers :=
              setEntry st1.subscribed_handlers h (subscribeProperties ind) }), [])
    generalize hW : ({ registerCallback st1 h cb with
        subscribed_handlers :=
          setEntry st1.subscribed_handlers h (subscribeProperties ind) } :
        DeviceState) = stW
    have hsv : stW.services = st1.services := by
      rw [← hW]
      cases cb <;> rfl
    have hlook : lookupA stW.subscribed_handlers h =
        some (subscribeProperties ind) := by
      rw [← hW]
      simpa using
        lookupA_setEntry_self st1.subscribed_handlers h (subscribeProperties ind)
    have hg2 : get_handle env stW uuid ss = (Except.ok h, stW, []) :=
      get_handle_stable hok hsv
    have hr2 := subscribe_resolved env stW uuid ss cb ind h stW [] hg2
    rw [if_pos hlook] at hr2
    have hreg : registerCallback stW h cb = stW := by
      cases cb with
      | none => rfl
      | some c =>
        have hcbW : stW.callbacks = addCallback st1.callbacks h c := by
          rw [← hW]
          rfl
        obtain ⟨cbs, hl, hm⟩ := addCallback_lookup st1.callbacks h c
        show { stW with callbacks := addCallback stW.callbacks h c } = stW
        rw [hcbW, addCallback_of_mem hl hm, ← hcbW]
    rw [hreg] at hr2
    exact hr2

theorem claim2_witness :
    (subscribe envAll stFull uuid1Str (some srvc8Str) (some 7) false).1 =
      Except.ok () ∧
    configWrites (subscribe envAll stFull uuid1Str (some srvc8Str)
      (some 7) false).2.2 = [Event.write 11 (subscribeProperties false) false] ∧
    lookupA (subscribe envAll stFull uuid1Str (some srvc8Str)
      (some 7) false).2.1.subscribed_handlers 10 =
        some (subscribeProperties false) ∧
    subscribe envAll (subscribe envAll stFull uuid1Str (some srvc8Str)
        (some 7) false).2.1 uuid1Str (some srvc8Str) (some 7) false =
      (Except.ok (),
       (subscribe envAll stFull uuid1Str (some srvc8Str) (some 7) false).2.1,
       []) :=
  claim2_subscribe_idempotent envAll stFull uuid1Str (some srvc8Str) (some 7)
    false 10 stFull [] (by decide) (by decide) (by decide)

end Pygatt

namespace Pygatt

/-- C6: for a resolvable characteristic UUID, when a subscription record
exists for its value handle `unsubscribe` succeeds, leaves no callback
set and no subscription record for the handle, and issues exactly one
configuration write of `[0x00, 0x00]` to the config handle; when no
record exists it succeeds and issues no configuration write at all. -/
theorem claim6_unsubscribe_behavior (env : Env) (st : DeviceState)
    (uuid : String) (h : Nat) (st1 : DeviceState) (evs1 : List Event)
    (hok : get_handle env st uuid none = (Except.ok h, st1, evs1))
    (hw : env.writeOk (h + 1) [0, 0] = true) :
    ((lookupA st1.subscribed_handlers h).isSome →
       (unsubscribe env st uuid).1 = Except.ok () ∧
       lookupA (unsubscribe env st uuid).2.1.callbacks h = none ∧
       lookupA (unsubscribe env st uuid).2.1.subscribed_handlers h = none ∧
       configWrites (unsubscribe env st uuid).2.2 =
         [Event.write (h + 1) [0, 0] false]) ∧
    (lookupA st1.subscribed_handlers h = none →
       (unsubscribe env st uuid).1 = Except.ok () ∧
       configWrites (unsubscribe env st uuid).2.2 = []) := by
  have hf1 : List.filter Event.isWrite evs1 = [] := by
    have hh := get_handle_no_writes env st uuid none
    rw [hok] at hh
    simpa [configWrites] using hh
  have hr := unsubscribe_resolved env st uuid h st1 evs1 hok
  constructor
  · intro hsub
    by_cases hcb : (lookupA st1.callbacks h).isSome
    · simp only [hcb, if_true, hsub, hw] at hr
      rw [hr]
      refine ⟨rfl, ?_, ?_, ?_⟩
      · simpa using lookupA_eraseEntry_self st1.callbacks h
      · simpa using lookupA_eraseEntry_self st1.subscribed_handlers h
      · simp [configWrites, List.filter_append, hf1, Event.isWrite]
    · have hcbn : lookupA st1.callbacks h = none :=
        Option.not_isSome_iff_eq_none.mp hcb
      simp only [hcbn, Option.isSome_none, Bool.false_eq_true, if_false, hsub,
        hw, if_true] at hr
      rw [hr]
      refine ⟨rfl, ?_, ?_, ?_⟩
      · simpa using hcbn
      · simpa using lookupA_eraseEntry_self st1.subscribed_handlers h
      · simp [configWrites, List.filter_append, hf1, Event.isWrite]
  · intro hnone
    by_cases hcb : (lookupA st1.callbacks h).isSome
    · simp only [hcb, if_true, hnone, Option.isSome_none, Bool.false_eq_true,
        if_false] at hr
      rw [hr]
      exact ⟨rfl, by simpa [configWrites] using hf1⟩
    · have hcbn : lookupA st1.callbacks h = none :=
        Option.not_isSome_iff_eq_none.mp hcb
      simp only [hcbn, Option.isSome_none, Bool.false_eq_true, if_false,
        hnone] at hr
      rw [hr]
      exact ⟨rfl, by simpa [configWrites] using hf1⟩

theorem claim6_witness :
    ((unsubscribe envAll stSubBoth uuid1Str).1 = Except.ok () ∧
     lookupA (unsubscribe envAll stSubBoth uuid1Str).2.1.callbacks 5 = none ∧
     lookupA (unsubscribe envAll stSubBoth uuid1Str).2.1.subscribed_handlers 5 =
       none ∧
     configWrites (unsubscribe envAll stSubBoth uuid1Str).2.2 =
       [Event.write 6 [0, 0] false]) ∧
    ((unsubscribe envAll stFull uuid1Str).1 = Except.ok () ∧
     configWrites (unsubscribe envAll stFull uuid1Str).2.2 = []) :=
  ⟨(claim6_unsubscribe_behavior envAll stSubBoth uuid1Str 5 stSubBoth []
      (by decide) (by decide)).1 (by decide),
   (claim6_unsubscribe_behavior envAll stFull uuid1Str 5 stFull []
      (by decide) (by decide)).2 (by decide)⟩

/-- C8 counterexample: in a catalog where characteristic `1` lives both
in service `4` (handle 5) and in service `8` (handle 10), resolving the
pair (characteristic `1`, service `8`) — as a service-scoped `subscribe`
does — yields handle 10, yet `unsubscribe` for the same characteristic
UUID writes its zero configuration to handle 6 (= 5 + 1, the unscoped
first match) and leaves the configuration record of handle 10 in place:
the source's `unsubscribe` takes no service argument and cannot restrict
the search to a service. -/
theorem claim8_unsubscribe_unscoped_counterexample :
    (get_handle envAll stSubBoth uuid1Str (some srvc8Str)).1 = Except.ok 10 ∧
    configWrites (unsubscribe envAll stSubBoth uuid1Str).2.2 =
      [Event.write 6 [0, 0] false] ∧
    lookupA (unsubscribe envAll stSubBoth uuid1Str).2.1.subscribed_handlers 10 =
      some [1, 0] := by decide

/-- C8 (amended): `unsubscribe` takes only the characteristic UUID; it
derives the value handle by resolving that UUID with no service
restriction (the first match in catalog iteration order) and the config
handle as that handle plus one — any configuration write it issues
targets that unscoped config handle, and the callback set and
subscription record it clears are those of the unscoped value handle. -/
theorem claim8_unsubscribe_resolves_unscoped (env : Env) (st : DeviceState)
    (uuid : String) (h : Nat) (st1 : DeviceState) (evs1 : List Event)
    (hok : get_handle env st uuid none = (Except.ok h, st1, evs1)) :
    lookupA (unsubscribe env st uuid).2.1.callbacks h = none ∧
    lookupA (unsubscribe env st uuid).2.1.subscribed_handlers h = none ∧
    ∀ e ∈ configWrites (unsubscribe env st uuid).2.2,
      e = Event.write (h + 1) [0, 0] false := by
  have hf1 : List.filter Event.isWrite evs1 = [] := by
    have hh := get_handle_no_writes env st uuid none
    rw [hok] at hh
    simpa [configWrites] using hh
  have hr := unsubscribe_resolved env st uuid h st1 evs1 hok
  have hwrites : ∀ e ∈ configWrites (evs1 ++ [Event.write (h + 1) [0, 0] false]),
      e = Event.write (h + 1) [0, 0] false := by
    intro e he
    simp only [configWrites, List.filter_append, hf1] at he
    simpa [Event.isWrite] using he
  have hvac : ∀ e ∈ configWrites evs1, e = Event.write (h + 1) [0, 0] false := by
    intro e he
    simp only [configWrites, hf1] at he
    simp at he
  by_cases hcb : (lookupA st1.callbacks h).isSome
  · by_cases hsub : (lookupA st1.subscribed_handlers h).isSome
    · cases hwr : env.writeOk (h + 1) [0, 0] <;>
        · simp only [hcb, hsub, hwr, if_true, Bool.false_eq_true, if_false] at hr
          rw [hr]
          exact ⟨by simpa using lookupA_eraseEntry_self st1.callbacks h,
            by simpa using lookupA_eraseEntry_self st1.subscribed_handlers h,
            hwrites⟩
    · simp only [if_pos hcb] at hr
      rw [if_neg hsub] at hr
      rw [hr]
      exact ⟨by simpa using lookupA_eraseEntry_self st1.callbacks h,
        by simpa using Option.not_isSome_iff_eq_none.mp hsub,
        hvac⟩
  · have hcb0 : lookupA st1.callbacks h = none :=
      Option.not_isSome_iff_eq_none.mp hcb
    by_cases hsub : (lookupA st1.subscribed_handlers h).isSome
    · cases hwr : env.writeOk (h + 1) [0, 0] <;>
        · simp only [hwr, Bool.false_eq_true, if_false, if_true] at hr
          simp only [if_neg hcb, if_pos hsub] at hr
          rw [hr]
          exact ⟨by simpa using hcb0,
            by simpa using lookupA_eraseEntry_self st1.subscribed_handlers h,
            hwrites⟩
    · simp only [if_neg hcb] at hr
      rw [if_neg hsub] at hr
      rw [hr]
      exact ⟨by simpa using hcb0,
        by simpa using Option.not_isSome_iff_eq_none.mp hsub,
        hvac⟩

end Pygatt

namespace Pygatt

theorem claim8_witness :
    lookupA (unsubscribe envAll stSubBoth uuid1Str).2.1.callbacks 5 = none ∧
    lookupA (unsubscribe envAll stSubBoth uuid1Str).2.1.subscribed_handlers 5 =
      none ∧
    Event.write 6 [0, 0] false = Event.write (5 + 1) [0, 0] false :=
  ⟨(claim8_unsubscribe_resolves_unscoped envAll stSubBoth uuid1Str 5 stSubBoth
      [] (by decide)).1,
   (claim8_unsubscribe_resolves_unscoped envAll stSubBoth uuid1Str 5 stSubBoth
      [] (by decide)).2.1,
   (claim8_unsubscribe_resolves_unscoped envAll stSubBoth uuid1Str 5 stSubBoth
      [] (by decide)).2.2 (Event.write 6 [0, 0] false) (by decide)⟩

end Pygatt
